import Mathlib

/-
Verification of the FoodCrawler tool-augmented conversation orchestrator.

The definitions below are a shallow embedding of the Python sources:
  * smart_coach.py — the food database, the lookup_nutrition capability,
    and the tool-call dispatch / poll loop of `main`;
  * main.py — `get_or_create_thread` and the `/ask` endpoint.
Remote-service behaviour (the Backboard client) is modelled as explicit
environment records: each remote call's result, including a thrown
exception, is a field of the environment, and a Python exception that a
function does not catch is an `Except.error` result of the embedded
function.  Event traces record the remote calls and sleeps a run performs,
in order.
-/

namespace FoodCrawler

/-- A tool-call argument payload as the Backboard client delivers it:
either an already-structured mapping or a string still to be parsed
(smart_coach.py line 143: "When polling, args might be a string").
Values are strings, matching the declared schema (food_name : string). -/
inductive ArgPayload where
  | structured (m : List (String × String))
  | stringly (s : String)
deriving DecidableEq

/-- The `function` field of a tool call: `tc.function.name` and
`tc.function.parsed_arguments` in smart_coach.py lines 141-144. -/
structure ToolFunction where
  name : String
  parsed_arguments : ArgPayload
deriving DecidableEq

/-- A tool-call request: `tc.id` and `tc.function` (smart_coach.py). -/
structure ToolCall where
  id : String
  function : ToolFunction
deriving DecidableEq

/-- One entry of the list submitted back to the agent
(smart_coach.py lines 154-157). -/
structure ToolOutput where
  tool_call_id : String
  output : String
deriving DecidableEq

/-- A thread message: role, nullable text content, and the (possibly
empty) list of tool calls attached to it.  `content = none` models a
message whose content attribute is null/absent (image, pending tool
call). -/
structure Msg where
  role : String
  content : Option String
  tool_calls : List ToolCall
deriving DecidableEq

/-- One value of FOOD_DATABASE (smart_coach.py lines 15-19): a dict with
keys "calories" and "ingredients", in that insertion order. -/
structure FoodEntry where
  calories : Nat
  ingredients : List String
deriving DecidableEq

/-- smart_coach.py lines 15-19: the mock nutrition database. -/
def FOOD_DATABASE : List (String × FoodEntry) :=
  [("pad thai", ⟨350, ["rice noodles", "peanuts", "egg", "shrimp"]⟩),
   ("grilled chicken salad", ⟨200, ["chicken breast", "lettuce", "olive oil"]⟩),
   ("protein shake", ⟨150, ["whey protein", "milk", "cocoa"]⟩)]

/-- Python's `json.dumps` of a FOOD_DATABASE entry dict, with the default
separators (", " and ": ") and insertion order of the keys. -/
def dumpsEntry (e : FoodEntry) : String :=
  "\x7b\"calories\": " ++ toString e.calories ++ ", \"ingredients\": ["
    ++ String.intercalate ", " (e.ingredients.map (fun s => "\"" ++ s ++ "\""))
    ++ "]\x7d"

/-- Python's `str.lower` on one character, for the ASCII letters that can
occur here: an uppercase A-Z code point is shifted down into a-z,
everything else is unchanged. -/
def lowerChar (c : Char) : Char :=
  if 65 ≤ c.toNat ∧ c.toNat ≤ 90 then Char.ofNat (c.toNat + 32) else c

/-- Python's `str.lower`, character by character. -/
def pyLower (s : String) : String := ⟨s.data.map lowerChar⟩

/-- smart_coach.py lines 21-27: `lookup_nutrition`.  `FOOD_DATABASE.get`
is an association lookup on the lowercased name; a fetched entry dict is
non-empty, hence truthy, so `if result:` distinguishes exactly found from
not found.  Both branches return a `json.dumps` string, so the function
is total: it never raises. -/
def lookup_nutrition (food_name : String) : String :=
  match FOOD_DATABASE.lookup (pyLower food_name) with
  | some result => dumpsEntry result
  | none => "\x7b\"error\": \"Food not found in database\"\x7d"

/-! ### A model of `json.loads` / `json.dumps` on flat string objects

The argument payloads exchanged here are flat JSON objects whose keys and
values are strings without escape sequences, e.g.
`\x7b"food_name": "Pad Thai"\x7d`.  `jsonLoadsFlat` parses exactly this
shape and returns `none` where Python's `json.loads` would raise
`json.decoder.JSONDecodeError`; `dumpsFlat` is `json.dumps` with its
default separators. -/

/-- The double-quote character. -/
def quoteCh : Char := Char.ofNat 34

/-- The opening-brace character. -/
def lbraceCh : Char := Char.ofNat 123

/-- The closing-brace character. -/
def rbraceCh : Char := Char.ofNat 125

/-- Drop leading JSON whitespace. -/
def skipWs : List Char → List Char
  | c :: cs =>
    if c == ' ' || c == '\t' || c == '\n' || c == '\r' then skipWs cs
    else c :: cs
  | [] => []

/-- Read the body of a string literal up to its closing quote. -/
def strBody : List Char → Option (List Char × List Char)
  | [] => none
  | c :: cs =>
    if c == quoteCh then some ([], cs)
    else match strBody cs with
      | some (body, rest) => some (c :: body, rest)
      | none => none

/-- Parse one quoted string literal. -/
def parseStr (cs : List Char) : Option (String × List Char) :=
  match cs with
  | c :: cs1 =>
    if c == quoteCh then
      match strBody cs1 with
      | some (body, rest) => some (⟨body⟩, rest)
      | none => none
    else none
  | [] => none

/-- Parse one `"key": "value"` pair, leading whitespace allowed. -/
def parsePair (cs : List Char) : Option ((String × String) × List Char) :=
  match parseStr (skipWs cs) with
  | none => none
  | some (k, cs1) =>
    match skipWs cs1 with
    | c :: cs2 =>
      if c == ':' then
        match parseStr (skipWs cs2) with
        | some (v, cs3) => some ((k, v), cs3)
        | none => none
      else none
    | [] => none

/-- Parse a comma-separated sequence of pairs; the fuel bounds the number
of pairs (each pair consumes at least one character, so the input length
is enough fuel). -/
def parsePairsAux : Nat → List Char → Option (List (String × String) × List Char)
  | 0, _ => none
  | Nat.succ fuel, cs =>
    match parsePair cs with
    | none => none
    | some (kv, cs1) =>
      match skipWs cs1 with
      | c :: cs2 =>
        if c == ',' then
          match parsePairsAux fuel cs2 with
          | some (kvs, rest) => some (kv :: kvs, rest)
          | none => none
        else some ([kv], skipWs cs1)
      | [] => some ([kv], [])

/-- `json.loads` on a flat string-to-string object; `none` stands for a
raised `json.decoder.JSONDecodeError`. -/
def jsonLoadsFlat (s : String) : Option (List (String × String)) :=
  match skipWs s.data with
  | c :: cs1 =>
    if c == lbraceCh then
      match skipWs cs1 with
      | d :: cs2 =>
        if d == rbraceCh then
          if skipWs cs2 == [] then some [] else none
        else
          match parsePairsAux (d :: cs2).length (d :: cs2) with
          | some (kvs, rest) =>
            match skipWs rest with
            | e :: rest1 =>
              if e == rbraceCh && skipWs rest1 == [] then some kvs else none
            | [] => none
          | none => none
      | [] => none
    else none
  | [] => none

/-- `json.dumps` of a flat string-to-string dict, default separators. -/
def dumpsFlat (m : List (String × String)) : String :=
  ⟨[lbraceCh]⟩
    ++ String.intercalate ", "
        (m.map (fun kv => ⟨[quoteCh]⟩ ++ kv.1 ++ ⟨[quoteCh]⟩ ++ ": "
                            ++ ⟨[quoteCh]⟩ ++ kv.2 ++ ⟨[quoteCh]⟩))
    ++ ⟨[rbraceCh]⟩

/-! ### The tool dispatcher (smart_coach.py lines 137-157) -/

/-- smart_coach.py lines 144-146: argument normalization.  A structured
payload is used directly; a string payload goes through `json.loads`,
whose failure is a raised `JSONDecodeError` (modelled as `Except.error`). -/
def resolveArgs : ArgPayload → Except String (List (String × String))
  | ArgPayload.structured m => Except.ok m
  | ArgPayload.stringly s =>
    match jsonLoadsFlat s with
    | some m => Except.ok m
    | none => Except.error "json.decoder.JSONDecodeError"

/-- One iteration of the dispatch loop body for a single tool call
(smart_coach.py lines 140-157).  `Except.ok none` means the call's name is
not "lookup_nutrition", so the `if` guard skips it and nothing is appended;
`Except.ok (some o)` is the appended output; `Except.error` is an exception
the loop body does not catch: `json.loads` failing, or `args.get` yielding
None so that `food_name.lower()` inside lookup_nutrition raises
AttributeError. -/
def dispatchOne (tc : ToolCall) : Except String (Option ToolOutput) :=
  if tc.function.name == "lookup_nutrition" then
    match resolveArgs tc.function.parsed_arguments with
    | Except.error e => Except.error e
    | Except.ok args =>
      match args.lookup "food_name" with
      | none => Except.error "AttributeError"
      | some food => Except.ok (some ⟨tc.id, lookup_nutrition food⟩)
  else Except.ok none

/-- The whole `for tc in tool_calls_found` loop: outputs are accumulated
in order; an uncaught exception in any iteration aborts the loop (and with
it every output already collected). -/
def dispatchAll : List ToolCall → Except String (List ToolOutput)
  | [] => Except.ok []
  | tc :: rest =>
    match dispatchOne tc with
    | Except.error e => Except.error e
    | Except.ok none => dispatchAll rest
    | Except.ok (some o) =>
      match dispatchAll rest with
      | Except.error e => Except.error e
      | Except.ok outs => Except.ok (o :: outs)

/-- A tool call the dispatch loop survives: either its name is not
"lookup_nutrition" (it is skipped), or its payload normalizes to a mapping
that has a "food_name" key. -/
def wellFormedCall (tc : ToolCall) : Bool :=
  if tc.function.name == "lookup_nutrition" then
    match resolveArgs tc.function.parsed_arguments with
    | Except.ok args => (args.lookup "food_name").isSome
    | Except.error _ => false
  else true

/-! ### The `/ask` endpoint (main.py lines 133-159)

The endpoint's remote collaborators are modelled by `AskEnv`: the thread
handle `get_or_create_thread` resolved (possibly `none`), the behaviour of
the `add_message` call, and per-tick behaviour of `get_thread`.  A run
yields the ordered trace of sleeps and remote calls plus either the
returned response dict (`Except.ok`) or a Python exception that escaped
the endpoint (`Except.error`). -/

/-- An observable step of one `/ask` run. -/
inductive Ev where
  | submitMsg (tid : Option String)
  | sleep
  | fetch (tid : Option String)
deriving DecidableEq

/-- Behaviour of a single `add_message` call: a normal return, the known
pydantic `ValidationError` defect, or any other exception. -/
inductive SubmitRes where
  | ok
  | validationError
  | exc (msg : String)
deriving DecidableEq

/-- The remote-service behaviour one `/ask` invocation observes.
`getThread i` is the behaviour of the `get_thread` call on tick `i`: a
raised exception, an object without a `messages` attribute, or a message
list. -/
structure AskEnv where
  threadId : Option String
  submitRes : SubmitRes
  getThread : Nat → Except String (Option (List Msg))

/-- The response dict `/ask` returns: either the answer dict (with the
possibly-null content of the matched message) or an error dict.  The code
renders its timeout as the error dict with text "Timeout". -/
inductive AskOutcome where
  | answer (content : Option String)
  | err (msg : String)
deriving DecidableEq

/-- main.py lines 156-158: scan the fetched messages most-recent-first
(`reversed(data.messages)`) and return the content of the first message
whose role is "assistant" — with no check on that content. -/
def scanAnswer (msgs : List Msg) : Option (Option String) :=
  (msgs.reverse.find? (fun m => m.role == "assistant")).map (fun m => m.content)

/-- main.py lines 152-158: the polling loop.  Each iteration sleeps, then
fetches the thread; the `get_thread` call is not guarded by any
try/except, so a raised exception escapes the endpoint (`Except.error`).
An object without a `messages` attribute is skipped; otherwise the
most-recent-first scan either returns the answer dict or the iteration
falls through.  An exhausted budget returns the "Timeout" error dict. -/
def askPoll (tid : Option String) (gt : Nat → Except String (Option (List Msg))) :
    Nat → Nat → List Ev × Except String AskOutcome
  | _, 0 => ([], Except.ok (AskOutcome.err "Timeout"))
  | i, Nat.succ k =>
    match gt i with
    | Except.error e => ([Ev.sleep, Ev.fetch tid], Except.error e)
    | Except.ok none =>
      (Ev.sleep :: Ev.fetch tid :: (askPoll tid gt (i + 1) k).1,
       (askPoll tid gt (i + 1) k).2)
    | Except.ok (some msgs) =>
      match scanAnswer msgs with
      | some c => ([Ev.sleep, Ev.fetch tid], Except.ok (AskOutcome.answer c))
      | none =>
        (Ev.sleep :: Ev.fetch tid :: (askPoll tid gt (i + 1) k).1,
         (askPoll tid gt (i + 1) k).2)

/-- The trace the polling loop emits when no tick terminates it: per tick
one sleep then one fetch. -/
def tickTrace (tid : Option String) : Nat → List Ev
  | 0 => []
  | Nat.succ k => Ev.sleep :: Ev.fetch tid :: tickTrace tid k

/-- main.py lines 133-159: the `/ask` endpoint after thread resolution.
`add_message` is attempted unconditionally (even when the resolved handle
is `None`); a `ValidationError` is swallowed and the run proceeds exactly
like a successful submission; any other exception returns the error dict
at once, before the first poll tick; otherwise the budget-5 polling loop
decides the outcome. -/
def ask (env : AskEnv) : List Ev × Except String AskOutcome :=
  match env.submitRes with
  | SubmitRes.exc m => ([Ev.submitMsg env.threadId], Except.ok (AskOutcome.err m))
  | SubmitRes.ok =>
    (Ev.submitMsg env.threadId :: (askPoll env.threadId env.getThread 0 5).1,
     (askPoll env.threadId env.getThread 0 5).2)
  | SubmitRes.validationError =>
    (Ev.submitMsg env.threadId :: (askPoll env.threadId env.getThread 0 5).1,
     (askPoll env.threadId env.getThread 0 5).2)

/-- A fetch result that keeps the polling loop waiting and cannot raise:
a successful `get_thread` whose history holds no assistant message and no
tool-call request. -/
def quietFetch : Except String (Option (List Msg)) → Bool
  | Except.ok none => true
  | Except.ok (some msgs) =>
    msgs.all (fun m => (m.role != "assistant") && m.tool_calls.isEmpty)
  | Except.error _ => false

/-- A fetch result that is not a raised exception. -/
def fetchOk : Except String (Option (List Msg)) → Bool
  | Except.ok _ => true
  | Except.error _ => false

/-! ### Thread resolution (main.py lines 57-73) -/

/-- A remote call `get_or_create_thread` can make.  The function never
performs any most-recent-thread (list-threads) query, so `listQuery`
never appears in its trace. -/
inductive TEv where
  | createCall (aid : String)
  | listQuery
deriving DecidableEq

/-- The state and remote behaviour one `get_or_create_thread` call sees:
the FORCE_THREAD_ID environment variable, the process-wide cached
`latest_thread_id`, the active `assistant_id`, the result of a
`create_thread` call (`Except.error` = any raised exception), and — for
comparison with the spec's recovery step — what a most-recently-created
thread query would have returned. -/
structure ThreadEnv where
  forced : Option String
  cached : Option String
  assistantId : Option String
  createThread : Except Unit String
  recentThread : Option String

/-- Python truthiness of an optional string: `None` and the empty string
are falsy. -/
def pyTruthy : Option String → Option String
  | some s => if s == "" then none else some s
  | none => none

/-- main.py lines 57-73: `get_or_create_thread`.  Returns the resolved
handle, the updated `latest_thread_id` cache, and the remote calls made.
Priority: truthy FORCE_THREAD_ID, then truthy cached handle, then (when
an assistant identity is active) a freshly created thread, which is
cached; a raised `create_thread` exception falls through to `None` via
the bare except.  No recovery query of existing threads is made. -/
def get_or_create_thread (env : ThreadEnv) :
    Option String × Option String × List TEv :=
  match pyTruthy env.forced with
  | some fid => (some fid, env.cached, [])
  | none =>
    match pyTruthy env.cached with
    | some tid => (some tid, env.cached, [])
    | none =>
      match pyTruthy env.assistantId with
      | some aid =>
        match env.createThread with
        | Except.ok tid => (some tid, some tid, [TEv.createCall aid])
        | Except.error _ => (none, env.cached, [TEv.createCall aid])
      | none => (none, env.cached, [])

/-- The spec's §4.1 resolution order, stated from the spec's words for
comparison with `get_or_create_thread`: forced handle, else cached handle,
else adopt the most recently created remote thread if the recovery query
finds one, else create a new thread. -/
def resolveThreadSpec (env : ThreadEnv) : Option String :=
  match pyTruthy env.forced with
  | some fid => some fid
  | none =>
    match pyTruthy env.cached with
    | some tid => some tid
    | none =>
      match env.recentThread with
      | some rid => some rid
      | none =>
        match env.createThread with
        | Except.ok tid => some tid
        | Except.error _ => none

/-! ### The smart_coach orchestration (smart_coach.py lines 92-176)

Session 2 of `main`: send the question, poll up to 5 times for either a
text answer or tool calls, dispatch the tool calls, submit the outputs,
and report the final response. -/

/-- An observable step of one smart_coach run. -/
inductive CEv where
  | submitMsg
  | sleep
  | fetch
  | submitOutputs
deriving DecidableEq

/-- The `add_message` response object when the call returns normally:
its `status` and its `tool_calls` (smart_coach.py lines 111-113). -/
structure CoachResp where
  status : String
  tool_calls : List ToolCall
deriving DecidableEq

/-- Behaviour of the `add_message` call in smart_coach.py lines 95-103:
a normal return carrying a response object, the caught `ValidationError`
(leaving `response = None`), or any other exception, which nothing
catches. -/
inductive CoachSubmit where
  | ok (r : CoachResp)
  | validationError
  | exc (msg : String)
deriving DecidableEq

/-- The remote behaviour one smart_coach run observes: the submit result,
the per-tick `get_thread` behaviour in the wait loop, the
`submit_tool_outputs` result (`Except.ok` carries the final response's
content, `Except.error` is any raised exception), and the fallback
`get_thread` of the except branch. -/
structure CoachEnv where
  submit : CoachSubmit
  getThread : Nat → Except String (Option (List Msg))
  subOut : Except String (Option String)
  finalGet : Except String (Option (List Msg))

/-- What a smart_coach run reports. -/
inductive CoachOutcome where
  | answered (c : String)
  | toolResolved (c : Option String)
  | noResponse
deriving DecidableEq

/-- How the wait loop ends: tool calls found (break), a text answer
printed (return), or the budget exhausted with nothing found. -/
inductive LoopRes where
  | tools (tcs : List ToolCall)
  | answered (c : String)
  | exhausted
deriving DecidableEq

/-- smart_coach.py lines 110-134: the wait loop.  Each iteration first
re-checks the live submit response for `REQUIRES_ACTION` (breaking with
its tool calls before any sleep); otherwise it sleeps and fetches the
thread inside a try/except that swallows every exception.  A non-empty
history's last message breaks with its tool calls if it has any, returns
its content if it is an assistant message with truthy content, and is
skipped otherwise. -/
def coachPollLoop (resp : Option CoachResp)
    (gt : Nat → Except String (Option (List Msg))) :
    Nat → Nat → List CEv × LoopRes
  | _, 0 => ([], LoopRes.exhausted)
  | i, Nat.succ k =>
    if (match resp with
        | some r => r.status == "REQUIRES_ACTION"
        | none => false) then
      ([], LoopRes.tools (match resp with
        | some r => r.tool_calls
        | none => []))
    else
      match gt i with
      | Except.error _ =>
        (CEv.sleep :: CEv.fetch :: (coachPollLoop resp gt (i + 1) k).1,
         (coachPollLoop resp gt (i + 1) k).2)
      | Except.ok none =>
        (CEv.sleep :: CEv.fetch :: (coachPollLoop resp gt (i + 1) k).1,
         (coachPollLoop resp gt (i + 1) k).2)
      | Except.ok (some msgs) =>
        match msgs.getLast? with
        | none =>
          (CEv.sleep :: CEv.fetch :: (coachPollLoop resp gt (i + 1) k).1,
           (coachPollLoop resp gt (i + 1) k).2)
        | some last =>
          if last.tool_calls.isEmpty = false then
            ([CEv.sleep, CEv.fetch], LoopRes.tools last.tool_calls)
          else if last.role == "assistant" then
            match last.content with
            | some c =>
              if c == "" then
                (CEv.sleep :: CEv.fetch :: (coachPollLoop resp gt (i + 1) k).1,
                 (coachPollLoop resp gt (i + 1) k).2)
              else ([CEv.sleep, CEv.fetch], LoopRes.answered c)
            | none =>
              (CEv.sleep :: CEv.fetch :: (coachPollLoop resp gt (i + 1) k).1,
               (coachPollLoop resp gt (i + 1) k).2)
          else
            (CEv.sleep :: CEv.fetch :: (coachPollLoop resp gt (i + 1) k).1,
             (coachPollLoop resp gt (i + 1) k).2)

/-- smart_coach.py lines 105-176: everything after the `add_message`
call.  The wait loop runs with budget 5.  Found (non-empty) tool calls
are dispatched — an exception in the dispatch loop escapes — and the
outputs are submitted: a successful `submit_tool_outputs` prints its
response's content directly, with no further polling; a raised one falls
to the bare-except fallback, which sleeps once, fetches the thread once,
and prints the last message's content (raising IndexError on an empty
history, AttributeError on an object without messages, and letting a
raised fetch escape). -/
def coachAfterSubmit (env : CoachEnv) (resp : Option CoachResp) :
    List CEv × Except String CoachOutcome :=
  match (coachPollLoop resp env.getThread 0 5).2 with
  | LoopRes.answered c =>
    ((coachPollLoop resp env.getThread 0 5).1, Except.ok (CoachOutcome.answered c))
  | LoopRes.exhausted =>
    ((coachPollLoop resp env.getThread 0 5).1, Except.ok CoachOutcome.noResponse)
  | LoopRes.tools tcs =>
    if tcs.isEmpty then
      ((coachPollLoop resp env.getThread 0 5).1, Except.ok CoachOutcome.noResponse)
    else
      match dispatchAll tcs with
      | Except.error e =>
        ((coachPollLoop resp env.getThread 0 5).1, Except.error e)
      | Except.ok _ =>
        match env.subOut with
        | Except.ok c =>
          ((coachPollLoop resp env.getThread 0 5).1 ++ [CEv.submitOutputs],
           Except.ok (CoachOutcome.toolResolved c))
        | Except.error _ =>
          match env.finalGet with
          | Except.error m =>
            ((coachPollLoop resp env.getThread 0 5).1
               ++ [CEv.submitOutputs, CEv.sleep, CEv.fetch],
             Except.error m)
          | Except.ok none =>
            ((coachPollLoop resp env.getThread 0 5).1
               ++ [CEv.submitOutputs, CEv.sleep, CEv.fetch],
             Except.error "AttributeError")
          | Except.ok (some msgs) =>
            match msgs.getLast? with
            | none =>
              ((coachPollLoop resp env.getThread 0 5).1
                 ++ [CEv.submitOutputs, CEv.sleep, CEv.fetch],
               Except.error "IndexError")
            | some last =>
              ((coachPollLoop resp env.getThread 0 5).1
                 ++ [CEv.submitOutputs, CEv.sleep, CEv.fetch],
               Except.ok (CoachOutcome.toolResolved last.content))

/-- smart_coach.py lines 92-176: the whole session-2 flow.  The
`add_message` call happens first; an uncaught exception from it escapes
(`Except.error`), a `ValidationError` leaves `response = None`, a normal
return carries the response object; then `coachAfterSubmit` takes over. -/
def coachMain (env : CoachEnv) : List CEv × Except String CoachOutcome :=
  match env.submit with
  | CoachSubmit.exc m => ([CEv.submitMsg], Except.error m)
  | CoachSubmit.ok r =>
    (CEv.submitMsg :: (coachAfterSubmit env (some r)).1,
     (coachAfterSubmit env (some r)).2)
  | CoachSubmit.validationError =>
    (CEv.submitMsg :: (coachAfterSubmit env none).1,
     (coachAfterSubmit env none).2)

/-! ### Helper lemmas -/

/-- Lowercasing a character twice is the same as lowercasing it once. -/
theorem lowerChar_idem (c : Char) : lowerChar (lowerChar c) = lowerChar c := by
  unfold lowerChar
  by_cases h : 65 ≤ c.toNat ∧ c.toNat ≤ 90
  · simp only [if_pos h]
    obtain ⟨h1, h2⟩ := h
    generalize hn : c.toNat = n at h1 h2
    interval_cases n <;> decide
  · simp only [if_neg h]

/-- Python's `str.lower` is idempotent on strings. -/
theorem pyLower_idem (s : String) : pyLower (pyLower s) = pyLower s := by
  unfold pyLower
  congr 1
  show (s.data.map lowerChar).map lowerChar = s.data.map lowerChar
  rw [List.map_map]
  exact List.map_congr_left fun a _ => lowerChar_idem a

/-- A history with no assistant message yields no answer from the scan. -/
theorem scanAnswer_eq_none (msgs : List Msg)
    (h : msgs.all (fun m => (m.role != "assistant") && m.tool_calls.isEmpty)
           = true) :
    scanAnswer msgs = none := by
  unfold scanAnswer
  have hf : msgs.reverse.find? (fun m => m.role == "assistant") = none := by
    rw [List.find?_eq_none]
    intro m hm
    rw [List.mem_reverse] at hm
    have hq := List.all_eq_true.mp h m hm
    simp only [Bool.and_eq_true, bne_iff_ne, ne_eq] at hq
    simp [hq.1]
  simp [hf]

/-- Under quiet fetches the polling loop runs its full budget and times
out, emitting one sleep and one fetch per tick. -/
theorem askPoll_quiet (tid : Option String)
    (gt : Nat → Except String (Option (List Msg)))
    (h : ∀ i, quietFetch (gt i) = true) :
    ∀ k i, askPoll tid gt i k
      = (tickTrace tid k, Except.ok (AskOutcome.err "Timeout")) := by
  intro k
  induction k with
  | zero => intro i; rfl
  | succ k ih =>
    intro i
    have hq := h i
    cases hg : gt i with
    | error e => rw [hg] at hq; simp [quietFetch] at hq
    | ok o =>
      cases o with
      | none => simp [askPoll, hg, ih (i + 1), tickTrace]
      | some msgs =>
        rw [hg] at hq
        simp only [quietFetch] at hq
        have hs := scanAnswer_eq_none msgs hq
        simp [askPoll, hg, hs, ih (i + 1), tickTrace]

/-- A poll round with positive budget always sleeps at least once. -/
theorem askPoll_sleep_mem (tid : Option String)
    (gt : Nat → Except String (Option (List Msg))) (i k : Nat) :
    Ev.sleep ∈ (askPoll tid gt i (Nat.succ k)).1 := by
  cases hg : gt i with
  | error e => simp [askPoll, hg]
  | ok o =>
    cases o with
    | none => simp [askPoll, hg]
    | some msgs =>
      cases hs : scanAnswer msgs with
      | none => simp [askPoll, hg, hs]
      | some c => simp [askPoll, hg, hs]

/-- A tick that fetches a history whose most-recent-first scan finds an
assistant message ends the loop at once with that message's content. -/
theorem askPoll_answer (tid : Option String)
    (gt : Nat → Except String (Option (List Msg))) (i k : Nat)
    (msgs : List Msg) (c : Option String)
    (hg : gt i = Except.ok (some msgs)) (hs : scanAnswer msgs = some c) :
    askPoll tid gt i (Nat.succ k)
      = ([Ev.sleep, Ev.fetch tid], Except.ok (AskOutcome.answer c)) := by
  simp [askPoll, hg, hs]

/-- Whatever the polling budget outcome, a run of `askPoll` with a
fetch behaviour that never raises ends in a returned dict. -/
theorem askPoll_total (tid : Option String)
    (gt : Nat → Except String (Option (List Msg)))
    (h : ∀ i, fetchOk (gt i) = true) :
    ∀ k i, ∃ o, (askPoll tid gt i k).2 = Except.ok o := by
  intro k
  induction k with
  | zero => exact fun _ => ⟨AskOutcome.err "Timeout", rfl⟩
  | succ k ih =>
    intro i
    have hi := h i
    cases hg : gt i with
    | error e => rw [hg] at hi; simp [fetchOk] at hi
    | ok o =>
      cases o with
      | none =>
        obtain ⟨o, ho⟩ := ih (i + 1)
        exact ⟨o, by simp [askPoll, hg, ho]⟩
      | some msgs =>
        cases hs : scanAnswer msgs with
        | none =>
          obtain ⟨o, ho⟩ := ih (i + 1)
          exact ⟨o, by simp [askPoll, hg, hs, ho]⟩
        | some c => exact ⟨AskOutcome.answer c, by simp [askPoll, hg, hs]⟩

/-- A live submit response in state REQUIRES_ACTION breaks the wait loop
before any sleep, carrying its tool calls. -/
theorem coachPollLoop_requires (r : CoachResp)
    (gt : Nat → Except String (Option (List Msg))) (i k : Nat)
    (h : r.status = "REQUIRES_ACTION") :
    coachPollLoop (some r) gt i (Nat.succ k) = ([], LoopRes.tools r.tool_calls) := by
  simp [coachPollLoop, h]

/-! ### Claim theorems -/

/-- C10: `lookup_nutrition` is total (it is a Lean function to `String`,
so it returns a JSON-serialized string for every input and never raises)
and case-insensitive — `lookup_nutrition s = lookup_nutrition (s.lower())`
for every string `s`; it returns the dumped database entry exactly when
the lowercased name is a key of FOOD_DATABASE, and the fixed error object
for every other name. -/
theorem c10_lookup_nutrition_props (s : String) :
    lookup_nutrition s = lookup_nutrition (pyLower s)
    ∧ (∀ e, FOOD_DATABASE.lookup (pyLower s) = some e →
        lookup_nutrition s = dumpsEntry e)
    ∧ (FOOD_DATABASE.lookup (pyLower s) = none →
        lookup_nutrition s = "\x7b\"error\": \"Food not found in database\"\x7d") := by
  refine ⟨?_, ?_, ?_⟩
  · unfold lookup_nutrition
    rw [pyLower_idem]
  · intro e he
    unfold lookup_nutrition
    rw [he]
  · intro he
    unfold lookup_nutrition
    rw [he]

/-- C8: a string-encoded argument payload and the structured mapping it
parses to produce the identical capability invocation: dispatching a
lookup_nutrition tool call whose arguments arrive as a string that
`json.loads` turns into the mapping `m` is the same as dispatching the
call with `m` directly. -/
theorem c8_args_roundtrip (cid s : String) (m : List (String × String))
    (h : jsonLoadsFlat s = some m) :
    dispatchOne ⟨cid, ⟨"lookup_nutrition", ArgPayload.stringly s⟩⟩
      = dispatchOne ⟨cid, ⟨"lookup_nutrition", ArgPayload.structured m⟩⟩ := by
  simp [dispatchOne, resolveArgs, h]

/-- C8 witness: the mapping `("food_name", "Pad Thai")` and its
`json.dumps` string encoding dispatch to the same capability call. -/
theorem c8_args_roundtrip_witness :
    dispatchOne ⟨"call_1", ⟨"lookup_nutrition",
        ArgPayload.stringly (dumpsFlat [("food_name", "Pad Thai")])⟩⟩
      = dispatchOne ⟨"call_1", ⟨"lookup_nutrition",
          ArgPayload.structured [("food_name", "Pad Thai")]⟩⟩ :=
  c8_args_roundtrip "call_1" _ _ (by decide)

/-- C2 counterexample: a batch of two tool calls in which the second
carries a malformed string payload.  The dispatch loop raises
`json.decoder.JSONDecodeError`, aborting the whole batch: no ToolOutput
is produced for either request — the claim's error-shaped ToolOutput for
the malformed request alone, with the sibling preserved, does not
happen. -/
theorem c2_dispatch_counterexample :
    dispatchAll
      [⟨"call_1", ⟨"lookup_nutrition",
          ArgPayload.structured [("food_name", "Pad Thai")]⟩⟩,
       ⟨"call_2", ⟨"lookup_nutrition", ArgPayload.stringly "oops"⟩⟩]
      = Except.error "json.decoder.JSONDecodeError" := rfl

/-- C2 (amended): for batches in which every lookup_nutrition request
carries a payload that normalizes to a mapping with a "food_name" key,
the dispatcher returns exactly one ToolOutput per such request, in order,
preserving the id correspondence — and a failing capability lookup (food
not in the database) still yields an output for its request only.
Requests naming any other capability are silently skipped (no output),
and a malformed payload raises, aborting the whole batch. -/
theorem c2_dispatch_outputs_amended (tcs : List ToolCall)
    (h : tcs.all wellFormedCall = true) :
    ∃ outs, dispatchAll tcs = Except.ok outs
      ∧ outs.map ToolOutput.tool_call_id
          = (tcs.filter
              (fun tc => tc.function.name == "lookup_nutrition")).map ToolCall.id := by
  induction tcs with
  | nil => exact ⟨[], rfl, rfl⟩
  | cons tc rest ih =>
    rw [List.all_cons, Bool.and_eq_true] at h
    obtain ⟨htc, hrest⟩ := h
    obtain ⟨outs, ho, hid⟩ := ih hrest
    unfold wellFormedCall at htc
    by_cases hn : (tc.function.name == "lookup_nutrition") = true
    · rw [if_pos hn] at htc
      cases hra : resolveArgs tc.function.parsed_arguments with
      | error e => rw [hra] at htc; simp at htc
      | ok args =>
        rw [hra] at htc
        obtain ⟨food, hf⟩ := Option.isSome_iff_exists.mp htc
        refine ⟨⟨tc.id, lookup_nutrition food⟩ :: outs, ?_, ?_⟩
        · simp [dispatchAll, dispatchOne, hn, hra, hf, ho]
        · simp [List.filter_cons, hn, hid]
    · rw [if_neg hn] at htc
      refine ⟨outs, ?_, ?_⟩
      · simp [dispatchAll, dispatchOne, hn, ho]
      · simp [List.filter_cons, hn, hid]

/-- C2 witness: two well-formed lookup_nutrition requests, the second for
a food missing from the database, produce exactly two outputs in order,
one per request id; the missing food's output carries the error JSON. -/
theorem c2_dispatch_outputs_witness :
    ∃ outs,
      dispatchAll
        [⟨"call_1", ⟨"lookup_nutrition",
            ArgPayload.structured [("food_name", "Pad Thai")]⟩⟩,
         ⟨"call_2", ⟨"lookup_nutrition",
            ArgPayload.stringly (dumpsFlat [("food_name", "pizza")])⟩⟩]
        = Except.ok outs
      ∧ outs.map ToolOutput.tool_call_id
          = (([⟨"call_1", ⟨"lookup_nutrition",
                ArgPayload.structured [("food_name", "Pad Thai")]⟩⟩,
               ⟨"call_2", ⟨"lookup_nutrition",
                ArgPayload.stringly (dumpsFlat [("food_name", "pizza")])⟩⟩] :
                  List ToolCall).filter
              (fun tc => tc.function.name == "lookup_nutrition")).map ToolCall.id :=
  c2_dispatch_outputs_amended _ (by decide)

/-- Remote behaviour refuting C1: the submission succeeds, and the
`get_thread` call of the first poll tick raises. -/
def envC1c : AskEnv :=
  ⟨some "t", SubmitRes.ok, fun _ => Except.error "ConnectionError"⟩

/-- C1 counterexample: when a `get_thread` call inside the polling loop
raises, the exception escapes the `/ask` endpoint unhandled
(`Except.error`) — the run produces none of the four terminal outcomes,
refuting the claim for remote behaviours that throw from the thread
fetch. -/
theorem c1_ask_outcome_counterexample :
    ask envC1c
      = ([Ev.submitMsg (some "t"), Ev.sleep, Ev.fetch (some "t")],
         Except.error "ConnectionError") := rfl

/-- C1 (amended): provided no `get_thread` call during polling raises,
every `/ask` run terminates with exactly one returned outcome dict — an
answer, an error, or the timeout error — and no fault escapes; submission
exceptions are handled (ValidationError is swallowed, every other one
returns the error dict). -/
theorem c1_ask_single_outcome_amended (env : AskEnv)
    (h : ∀ i, fetchOk (env.getThread i) = true) :
    ∃ o, (ask env).2 = Except.ok o := by
  cases henv : env.submitRes with
  | exc m => exact ⟨AskOutcome.err m, by simp [ask, henv]⟩
  | ok =>
    obtain ⟨o, ho⟩ := askPoll_total env.threadId env.getThread h 5 0
    exact ⟨o, by simp [ask, henv, ho]⟩
  | validationError =>
    obtain ⟨o, ho⟩ := askPoll_total env.threadId env.getThread h 5 0
    exact ⟨o, by simp [ask, henv, ho]⟩

/-- Remote behaviour for the C1 witness: fetches succeed but carry no
message list. -/
def envC1w : AskEnv := ⟨some "t", SubmitRes.ok, fun _ => Except.ok none⟩

/-- C1 witness: with never-raising fetches the run ends in a returned
outcome dict. -/
theorem c1_ask_single_outcome_witness : ∃ o, (ask envC1w).2 = Except.ok o :=
  c1_ask_single_outcome_amended envC1w (fun _ => rfl)

/-- C3: when the submission is soft-successful and every fetched history
is quiet (no assistant message, no tool calls, no raised fetch), the
polling loop performs exactly five ticks — each one sleep followed by one
thread fetch — and then returns the timeout error dict: the whole trace
is the submission event followed by exactly `tickTrace _ 5`. -/
theorem c3_timeout_after_five_ticks (env : AskEnv)
    (hs : env.submitRes = SubmitRes.ok ∨ env.submitRes = SubmitRes.validationError)
    (hq : ∀ i, quietFetch (env.getThread i) = true) :
    ask env = (Ev.submitMsg env.threadId :: tickTrace env.threadId 5,
               Except.ok (AskOutcome.err "Timeout")) := by
  have hp := askPoll_quiet env.threadId env.getThread hq 5 0
  rcases hs with h | h <;> simp [ask, h, hp]

/-- Remote behaviour for the C3 witness: every fetch returns a history
holding one user message only. -/
def envC3w : AskEnv :=
  ⟨some "t", SubmitRes.ok, fun _ => Except.ok (some [⟨"user", some "hi", []⟩])⟩

/-- C3 witness: a concrete never-answering thread times out after exactly
the five sleep-then-fetch ticks. -/
theorem c3_timeout_after_five_ticks_witness :
    ask envC3w = (Ev.submitMsg (some "t") :: tickTrace (some "t") 5,
                  Except.ok (AskOutcome.err "Timeout")) :=
  c3_timeout_after_five_ticks envC3w (Or.inl rfl) (fun _ => rfl)

/-- Remote behaviour refuting C4: the first fetched history's only (and
hence most recent) message is an assistant message with null content. -/
def envC4c : AskEnv :=
  ⟨some "t", SubmitRes.ok, fun _ => Except.ok (some [⟨"assistant", none, []⟩])⟩

/-- C4 counterexample: the scan returns the ANSWERED outcome for an
assistant message whose content is null — `/ask` returns
`answer none` on the first tick instead of skipping the contentless
message, refuting the claim that ANSWERED requires non-empty text. -/
theorem c4_scan_counterexample :
    ask envC4c
      = ([Ev.submitMsg (some "t"), Ev.sleep, Ev.fetch (some "t")],
         Except.ok (AskOutcome.answer none)) := rfl

/-- C4 (amended): the polling scan inspects messages most-recent-first
and returns the ANSWERED outcome at the first message whose role is
"assistant", regardless of its content — which may be null or empty;
messages of other roles, with or without content, are skipped without
producing an error.  The returned content is exactly that message's
(possibly null) content. -/
theorem c4_scan_most_recent_first_amended (env : AskEnv)
    (msgs : List Msg) (m : Msg)
    (hs : env.submitRes = SubmitRes.ok ∨ env.submitRes = SubmitRes.validationError)
    (hg : env.getThread 0 = Except.ok (some msgs))
    (hf : msgs.reverse.find? (fun x => x.role == "assistant") = some m) :
    ask env = ([Ev.submitMsg env.threadId, Ev.sleep, Ev.fetch env.threadId],
               Except.ok (AskOutcome.answer m.content)) := by
  have hscan : scanAnswer msgs = some m.content := by
    simp [scanAnswer, hf]
  have e5 : askPoll env.threadId env.getThread 0 5
      = ([Ev.sleep, Ev.fetch env.threadId],
         Except.ok (AskOutcome.answer m.content)) :=
    askPoll_answer env.threadId env.getThread 0 4 msgs m.content hg hscan
  rcases hs with h | h <;> simp [ask, h, e5]

/-- Remote behaviour for the C4 witness: the most recent message is a
null-content tool message, and behind it sits an assistant message that
itself has null content. -/
def envC4w : AskEnv :=
  ⟨some "t", SubmitRes.ok,
   fun _ => Except.ok (some [⟨"assistant", none, []⟩, ⟨"tool", none, []⟩])⟩

/-- C4 witness: the scan skips the newer contentless tool message and
answers with the assistant message's (null) content on the first tick. -/
theorem c4_scan_most_recent_first_witness :
    ask envC4w = ([Ev.submitMsg (some "t"), Ev.sleep, Ev.fetch (some "t")],
                  Except.ok (AskOutcome.answer none)) :=
  c4_scan_most_recent_first_amended envC4w
    [⟨"assistant", none, []⟩, ⟨"tool", none, []⟩] ⟨"assistant", none, []⟩
    (Or.inl rfl) rfl rfl

/-- C5: the known deserialization defect (ValidationError) on submission
is a soft success — the run is identical, trace and outcome, to a run
whose submission returned normally, and it does proceed to polling (the
trace contains a sleep); every other submission exception returns the
error dict immediately, with no sleep and no fetch ever happening. -/
theorem c5_soft_submission_success (env : AskEnv) :
    (ask { env with submitRes := SubmitRes.validationError }
        = ask { env with submitRes := SubmitRes.ok }
      ∧ Ev.sleep ∈ (ask { env with submitRes := SubmitRes.validationError }).1)
    ∧ (∀ m, env.submitRes = SubmitRes.exc m →
        ask env = ([Ev.submitMsg env.threadId], Except.ok (AskOutcome.err m))) := by
  refine ⟨⟨rfl, ?_⟩, ?_⟩
  · have hm : Ev.sleep ∈ (askPoll env.threadId env.getThread 0 5).1 :=
      askPoll_sleep_mem env.threadId env.getThread 0 4
    exact List.mem_cons_of_mem _ hm
  · intro m h
    simp [ask, h]

/-- Behaviour refuting C7: thread resolution yielded no handle, and the
`add_message` call with the null handle raised the ValidationError. -/
def envC7c : AskEnv := ⟨none, SubmitRes.validationError, fun _ => Except.ok none⟩

/-- C7 counterexample: with no resolved thread handle, `/ask` still
attempts the message submission (the trace records `submitMsg none`),
and when that submission raises the swallowed ValidationError the run
proceeds to all five poll attempts and ends in the timeout dict — not in
an immediate Error without submission or polling, refuting the claim. -/
theorem c7_no_thread_counterexample :
    ask envC7c = (Ev.submitMsg none :: tickTrace none 5,
                  Except.ok (AskOutcome.err "Timeout")) := rfl

/-- C7 (amended): when thread resolution yields no handle, `/ask` does
not short-circuit: it attempts the submission with the null handle (the
first trace event is always `submitMsg none`); only if that submission
raises a non-ValidationError exception does the run return the error
dict immediately, with no poll attempt. -/
theorem c7_error_on_no_thread_amended (env : AskEnv)
    (h : env.threadId = none) :
    (ask env).1.head? = some (Ev.submitMsg none)
    ∧ (∀ m, env.submitRes = SubmitRes.exc m →
        ask env = ([Ev.submitMsg none], Except.ok (AskOutcome.err m))) := by
  constructor
  · cases hs : env.submitRes <;> simp [ask, hs, h]
  · intro m hm
    simp [ask, hm, h]

/-- Behaviour for the C7 witness: no handle, and the submission raises a
hard exception. -/
def envC7w : AskEnv :=
  ⟨none, SubmitRes.exc "Invalid thread_id", fun _ => Except.ok none⟩

/-- C7 witness: a null handle with a hard submission failure returns the
error dict at once, submission attempted, no polling. -/
theorem c7_error_on_no_thread_witness :
    (ask envC7w).1.head? = some (Ev.submitMsg none)
    ∧ (∀ m, envC7w.submitRes = SubmitRes.exc m →
        ask envC7w = ([Ev.submitMsg none], Except.ok (AskOutcome.err m))) :=
  c7_error_on_no_thread_amended envC7w rfl

/-- Behaviour refuting C6: nothing forced, nothing cached, an assistant
identity active, thread creation succeeding with "T-new", while the
remote service's most recently created thread is "T-old". -/
def envC6c : ThreadEnv :=
  ⟨none, none, some "asst", Except.ok "T-new", some "T-old"⟩

/-- C6 counterexample: with no forced and no cached handle,
`get_or_create_thread` creates a brand-new thread at once — its only
remote call is `create_thread`, it never performs the most-recent-thread
recovery query — and returns "T-new", whereas the spec's resolution
order would adopt the recoverable "T-old". -/
theorem c6_thread_resolution_counterexample :
    (get_or_create_thread envC6c).1 = some "T-new"
    ∧ (get_or_create_thread envC6c).2.2 = [TEv.createCall "asst"]
    ∧ TEv.listQuery ∉ (get_or_create_thread envC6c).2.2
    ∧ resolveThreadSpec envC6c = some "T-old"
    ∧ (some "T-new" : Option String) ≠ some "T-old" := by
  refine ⟨rfl, rfl, ?_, rfl, ?_⟩ <;> decide

/-- C6 (amended): thread resolution follows the priority order
forced/pinned handle (returned unconditionally, regardless of the cached
handle) → handle cached during this process lifetime → a brand-new
thread created under the active assistant identity and cached; there is
no recovery step — the function never queries the remote service for the
most recently created thread — and a creation failure or a missing
assistant identity yields no handle. -/
theorem c6_thread_resolution_amended (env : ThreadEnv) :
    (∀ f, pyTruthy env.forced = some f → (get_or_create_thread env).1 = some f)
    ∧ (pyTruthy env.forced = none → ∀ t, pyTruthy env.cached = some t →
        (get_or_create_thread env).1 = some t)
    ∧ TEv.listQuery ∉ (get_or_create_thread env).2.2
    ∧ (pyTruthy env.forced = none → pyTruthy env.cached = none →
        ∀ aid, pyTruthy env.assistantId = some aid →
          (∀ tid, env.createThread = Except.ok tid →
            (get_or_create_thread env).1 = some tid
            ∧ (get_or_create_thread env).2.1 = some tid)
          ∧ (∀ u, env.createThread = Except.error u →
              (get_or_create_thread env).1 = none))
    ∧ (pyTruthy env.forced = none → pyTruthy env.cached = none →
        pyTruthy env.assistantId = none →
        (get_or_create_thread env).1 = none) := by
  refine ⟨?_, ?_, ?_, ?_, ?_⟩
  · intro f hf
    simp [get_or_create_thread, hf]
  · intro hf t ht
    simp [get_or_create_thread, hf, ht]
  · cases hf : pyTruthy env.forced with
    | some f => simp [get_or_create_thread, hf]
    | none =>
      cases hc : pyTruthy env.cached with
      | some t => simp [get_or_create_thread, hf, hc]
      | none =>
        cases ha : pyTruthy env.assistantId with
        | some aid =>
          cases hcr : env.createThread
            <;> simp [get_or_create_thread, hf, hc, ha, hcr]
        | none => simp [get_or_create_thread, hf, hc, ha]
  · intro hf hc aid ha
    constructor
    · intro tid hcr
      constructor <;> simp [get_or_create_thread, hf, hc, ha, hcr]
    · intro u hcr
      simp [get_or_create_thread, hf, hc, ha, hcr]
  · intro hf hc ha
    simp [get_or_create_thread, hf, hc, ha]

/-- Behaviour refuting C9: a live REQUIRES_ACTION response carrying one
well-formed tool call, and a `submit_tool_outputs` call that succeeds,
returning a final response with content. -/
def envC9c : CoachEnv :=
  ⟨CoachSubmit.ok ⟨"REQUIRES_ACTION",
      [⟨"call_1", ⟨"lookup_nutrition",
          ArgPayload.structured [("food_name", "Pad Thai")]⟩⟩]⟩,
   fun _ => Except.ok none,
   Except.ok (some "Pad Thai contains peanuts - avoid it."),
   Except.ok none⟩

/-- C9 counterexample: when `submit_tool_outputs` succeeds, the
orchestrator prints its response's content directly — the full trace is
`[submitMsg, submitOutputs]`, with no sleep and no fetch after the
output submission: there is no re-entry into a bounded polling wait
before producing the ToolResolvedAnswer, refuting the claim. -/
theorem c9_ordering_counterexample :
    coachMain envC9c
      = ([CEv.submitMsg, CEv.submitOutputs],
         Except.ok (CoachOutcome.toolResolved
           (some "Pad Thai contains peanuts - avoid it."))) := rfl

/-- C9 (amended): within one run, message submission strictly precedes
every poll tick (the first trace event is always the submission); after
the tool outputs are submitted, a successful `submit_tool_outputs` call
yields the ToolResolvedAnswer directly from its own response, with no
follow-up poll at all, and only a raised `submit_tool_outputs` call is
followed by exactly one bounded follow-up wait — a single sleep and a
single thread fetch, one tool-resolution round — before the final
content is produced. -/
theorem c9_ordering_amended (env : CoachEnv) :
    (coachMain env).1.head? = some CEv.submitMsg
    ∧ (∀ r c, env.submit = CoachSubmit.ok r → r.status = "REQUIRES_ACTION" →
        r.tool_calls ≠ [] →
        (∃ outs, dispatchAll r.tool_calls = Except.ok outs) →
        env.subOut = Except.ok c →
        coachMain env = ([CEv.submitMsg, CEv.submitOutputs],
                         Except.ok (CoachOutcome.toolResolved c)))
    ∧ (∀ r e msgs last, env.submit = CoachSubmit.ok r →
        r.status = "REQUIRES_ACTION" → r.tool_calls ≠ [] →
        (∃ outs, dispatchAll r.tool_calls = Except.ok outs) →
        env.subOut = Except.error e →
        env.finalGet = Except.ok (some msgs) → msgs.getLast? = some last →
        coachMain env
          = ([CEv.submitMsg, CEv.submitOutputs, CEv.sleep, CEv.fetch],
             Except.ok (CoachOutcome.toolResolved last.content))) := by
  refine ⟨?_, ?_, ?_⟩
  · cases hs : env.submit <;> simp [coachMain, hs]
  · rintro r c hr hst hne ⟨outs, hout⟩ hsub
    have hl : coachPollLoop (some r) env.getThread 0 5
        = ([], LoopRes.tools r.tool_calls) :=
      coachPollLoop_requires r env.getThread 0 4 hst
    have hemp : r.tool_calls.isEmpty = false := by
      cases he : r.tool_calls with
      | nil => exact absurd he hne
      | cons a l => rfl
    simp [coachMain, hr, coachAfterSubmit, hl, hemp, hout, hsub]
  · rintro r e msgs last hr hst hne ⟨outs, hout⟩ hsub hfin hlast
    have hl : coachPollLoop (some r) env.getThread 0 5
        = ([], LoopRes.tools r.tool_calls) :=
      coachPollLoop_requires r env.getThread 0 4 hst
    have hemp : r.tool_calls.isEmpty = false := by
      cases he : r.tool_calls with
      | nil => exact absurd he hne
      | cons a l => rfl
    simp [coachMain, hr, coachAfterSubmit, hl, hemp, hout, hsub, hfin, hlast]

end FoodCrawler
